import Mathlib

/- Verification of the npm package-lock → Nexus migration tool.

   The two Python modules (download_packages.py and upload_to_nexus.py) are
   shallowly embedded below.  Pure string and list manipulation is translated
   directly from the source; calls into external libraries (hashlib.sha512,
   urllib.parse.urljoin, the current working directory used by
   os.path.abspath) are explicit parameters; the effectful environment
   (filesystem contents, HTTP responses) is passed in as data.  Functions with
   side effects additionally return the trace of remote calls they perform and
   the log lines they print, so that the reconciliation claims can be stated
   as properties of those traces. -/

/-! ## Byte-level encodings

`base64.b64encode(digest).decode()` and `hash.hexdigest()` from the source are
modelled as the standard base64 / lowercase-hex encodings of a byte list.
Decoders are provided so that round-trip claims about the two encodings of the
same digest can be stated. -/

def b64Table : List Char :=
  "ABCDEFGHIJKLMNOPQRSTUVWXYZabcdefghijklmnopqrstuvwxyz0123456789+/".toList

def b64Char (n : Nat) : Char := b64Table.getD n '?'

def b64Index (ch : Char) : Option Nat := b64Table.findIdx? (fun x => x == ch)

def b64encodeBytes : List Nat → List Char
  | [] => []
  | [a] => [b64Char (a / 4), b64Char (a % 4 * 16), '=', '=']
  | [a, b] => [b64Char (a / 4), b64Char (a % 4 * 16 + b / 16), b64Char (b % 16 * 4), '=']
  | a :: b :: c :: rest =>
    b64Char (a / 4) :: b64Char (a % 4 * 16 + b / 16) :: b64Char (b % 16 * 4 + c / 64) ::
      b64Char (c % 64) :: b64encodeBytes rest

def b64decodeChars : List Char → Option (List Nat)
  | [] => some []
  | c1 :: c2 :: c3 :: c4 :: rest =>
    match b64Index c1, b64Index c2 with
    | some s1, some s2 =>
      if c3 = '=' then
        if c4 = '=' ∧ rest = [] then some [s1 * 4 + s2 / 16] else none
      else
        match b64Index c3 with
        | some s3 =>
          if c4 = '=' then
            if rest = [] then some [s1 * 4 + s2 / 16, s2 % 16 * 16 + s3 / 4] else none
          else
            match b64Index c4 with
            | some s4 =>
              match b64decodeChars rest with
              | some tail => some ((s1 * 4 + s2 / 16) :: (s2 % 16 * 16 + s3 / 4) ::
                  (s3 % 4 * 64 + s4) :: tail)
              | none => none
            | none => none
        | none => none
    | _, _ => none
  | _ => none

def hexTable : List Char := "0123456789abcdef".toList

def hexChar (n : Nat) : Char := hexTable.getD n '?'

def hexIndex (ch : Char) : Option Nat := hexTable.findIdx? (fun x => x == ch)

def hexEncodeBytes : List Nat → List Char
  | [] => []
  | b :: rest => hexChar (b / 16) :: hexChar (b % 16) :: hexEncodeBytes rest

def hexDecodeChars : List Char → Option (List Nat)
  | [] => some []
  | c1 :: c2 :: rest =>
    match hexIndex c1, hexIndex c2 with
    | some h1, some h2 =>
      match hexDecodeChars rest with
      | some tail => some ((h1 * 16 + h2) :: tail)
      | none => none
    | _, _ => none
  | _ => none


/-! ## Python string primitives

Helpers mirroring the exact string operations the source performs.  Python
strings are modelled as Lean `String`; each helper is the direct translation
of the corresponding Python expression. -/

/-- Python `s.startswith(pre)`. -/
def str_startswith (s pre : String) : Bool := List.isPrefixOf pre.toList s.toList

/-- Python `s.endswith(suf)`. -/
def str_endswith (s suf : String) : Bool := List.isSuffixOf suf.toList s.toList

/-- Python `s[:n]`. -/
def str_take (s : String) (n : Nat) : String := String.mk (s.toList.take n)

/-- Python truthiness of an optional string: `None` and `""` are falsy. -/
def py_truthy : Option String → Bool
  | none => false
  | some s => if s = "" then false else true

/-- Python `str(x)` for an optional string (`str(None) = "None"`). -/
def py_str_opt : Option String → String
  | none => "None"
  | some s => s

/-- Python `s.replace(a, b)` for single-character `a` and `b`. -/
def replace_char (a b : Char) (s : String) : String :=
  String.mk (s.toList.map (fun c => if c = a then b else c))

/-- Python `s.split(c)` for a single-character separator. -/
def split_char (c : Char) : List Char → List (List Char)
  | [] => [[]]
  | x :: rest =>
    match split_char c rest with
    | [] => [[]]
    | h :: t => if x = c then [] :: h :: t else (x :: h) :: t

/-- Python `s.split('/', 1)` on a string known to contain `'/'`:
the part before the first slash and the rest. -/
def split_first_slash : List Char → List Char × List Char
  | [] => ([], [])
  | c :: rest =>
    if c = '/' then ([], rest)
    else
      let p := split_first_slash rest
      (c :: p.1, p.2)

/-- Python `name.split('/', 1)` wrapped for `String` (download_packages.py line 150). -/
def split_scoped (name : String) : String × String :=
  let p := split_first_slash name.toList
  (String.mk p.1, String.mk p.2)

/-- Python `os.path.join(dir, file)` for the POSIX separator. -/
def os_path_join (dir file : String) : String :=
  if str_startswith file "/" = true then file
  else if dir = "" then file
  else if str_endswith dir "/" = true then dir ++ file
  else dir ++ "/" ++ file

/-- Python `os.path.abspath(p)`, parameterised by the working directory. -/
def os_path_abspath (cwd p : String) : String :=
  if str_startswith p "/" = true then p else cwd ++ "/" ++ p

/-! ## Lockfile parser (download_packages.py, `parse_package_lock`)

The JSON file read is modelled as a `LockInput`: the file may be absent, be
invalid JSON, or parse to a document whose optional `packages` field maps
installation paths to entries with optional `resolved` / `integrity` /
`version` fields.  Every `print` in the source becomes one `DlLog`
constructor carrying the data interpolated into the message, so distinct
messages are distinct constructors. -/

structure PackageDetails where
  name : String
  version : String
  resolved : String
  sha512_b64 : String
deriving DecidableEq

structure PkgEntry where
  resolved : Option String
  integrity : Option String
  version : Option String
deriving DecidableEq

inductive LockInput where
  | noFile
  | badJson
  | parsed (packages : Option (List (String × PkgEntry)))

inductive DlLog where
  | parsingFile (path : String)
  | fileNotFound (path : String)
  | badFormat (path : String)
  | packagesEmptyOrMissing
  | skipInvalidEntry (path : String)
  | noSha512 (name version : String)
  | parseDone (count : Nat)
deriving DecidableEq

/-- The literal `'node_modules/'` used on line 54 of download_packages.py. -/
def nm_marker : List Char := "node_modules/".toList

/-- Start indices at which `nm_marker` occurs in `l`. -/
def occ_list (l : List Char) : List Nat :=
  (List.range (l.length + 1)).filter (fun i => List.isPrefixOf nm_marker (l.drop i))

/-- Python `path[path.rfind('node_modules/') + len('node_modules/'):]`
(`rfind` returns -1 when the marker is absent, so that case drops
`len - 1 = 12` characters). -/
def derive_name (path : String) : String :=
  let l := path.toList
  match (occ_list l).getLast? with
  | some i => String.mk (l.drop (i + nm_marker.length))
  | none => String.mk (l.drop (nm_marker.length - 1))

/-- Python `s.replace('sha512-', '')`: drop every occurrence of the tag.  A
prefix match consumes the seven characters of the tag (the head plus six of
the tail); the fallback of the inner match is unreachable because a prefix
match guarantees at least six further characters. -/
def replace_sha512_tag : List Char → List Char
  | [] => []
  | c :: rest =>
    if List.isPrefixOf ("sha512-".toList) (c :: rest) then
      match rest with
      | _ :: _ :: _ :: _ :: _ :: _ :: r => replace_sha512_tag r
      | _ => []
    else c :: replace_sha512_tag rest

/-- The loop over `integrity.split(' ')` on lines 62-65: first token starting
with `sha512-`, with the tag removed. -/
def scan_sha512_token : List (List Char) → Option (List Char)
  | [] => none
  | t :: rest =>
    if List.isPrefixOf ("sha512-".toList) t then some (replace_sha512_tag t)
    else scan_sha512_token rest

/-- Lines 61-69: the extracted base64 digest, `none` when no token was found
or the extracted value is falsy (line 67 `if not sha512_b64`). -/
def find_sha512_b64 (tokens : List (List Char)) : Option (List Char) :=
  match scan_sha512_token tokens with
  | some b64 => if b64 = [] then none else some b64
  | none => none

/-- The `for path, details in all_packages.items()` loop of lines 43-76. -/
def parse_entries : List (String × PkgEntry) → List PackageDetails × List DlLog
  | [] => ([], [])
  | (path, details) :: rest =>
    let t := parse_entries rest
    if path = "" then t
    else
      let name := derive_name path
      if ¬ (py_truthy details.resolved = true ∧ py_truthy details.integrity = true ∧
            py_truthy details.version = true ∧ name ≠ "") then
        (t.1, DlLog.skipInvalidEntry path :: t.2)
      else
        match find_sha512_b64 (split_char ' ' (details.integrity.getD "").toList) with
        | none => (t.1, DlLog.noSha512 name (details.version.getD "") :: t.2)
        | some b64 =>
          ({ name := name, version := details.version.getD "",
             resolved := details.resolved.getD "",
             sha512_b64 := String.mk b64 } :: t.1, t.2)

/-- download_packages.py lines 22-79, `parse_package_lock`.  Total: every
failure case returns an empty list with its diagnostic instead of raising. -/
def parse_package_lock (lockfile_path : String) (input : LockInput) :
    List PackageDetails × List DlLog :=
  let logs0 := [DlLog.parsingFile lockfile_path]
  match input with
  | LockInput.noFile => ([], logs0 ++ [DlLog.fileNotFound lockfile_path])
  | LockInput.badJson => ([], logs0 ++ [DlLog.badFormat lockfile_path])
  | LockInput.parsed packagesField =>
    let all_packages := packagesField.getD []
    if all_packages = [] then ([], logs0 ++ [DlLog.packagesEmptyOrMissing])
    else
      let t := parse_entries all_packages
      (t.1, logs0 ++ t.2 ++ [DlLog.parseDone t.1.length])

/-! ## Archive fetcher (download_packages.py, `download_package`)

External effects are explicit: `PyLib` carries the library functions the
source calls (`hashlib.sha512` as a byte-list digest function,
`urllib.parse.urljoin`, and the working directory used by `os.path.abspath`);
`fileBefore` is the prior content of the destination path (the
`os.path.exists` cache check of line 118); `NetResult` is what the streamed
`requests.get` of lines 130-135 delivers.  The outcome records the returned
metadata, the file content left on disk, and the exception caught on line
166 (which the source logs before returning `None`). -/

structure PyLib where
  sha512 : List Nat → List Nat
  urljoin : String → String → String
  cwd : String

structure DownloaderCfg where
  download_dir : String
  use_resolved_url : Bool
  mirror_registry : Option String

inductive NetResult where
  | ok (chunks : List (List Nat))
  | httpError
  | midStreamError (written : List (List Nat))

structure MetaEntry where
  group : String
  name : String
  version : String
  nexus_search_name : String
  download_url : String
  local_path : String
  sha512_hex : String
deriving DecidableEq

inductive FetchErr where
  | httpError
  | midStreamError
  | hashMismatch (expected got : String)
deriving DecidableEq

structure FetchOutcome where
  result : Option MetaEntry
  fileAfter : Option (List Nat)
  error : Option FetchErr
deriving DecidableEq

/-- Concatenation of the streamed chunks (the bytes folded into the hash and
written to the file by lines 133-135). -/
def join_chunks : List (List Nat) → List Nat
  | [] => []
  | c :: rest => c ++ join_chunks rest

/-- Lines 96-105: the download URL, either the lockfile `resolved` URL, or the
registry-layout URL rebuilt against the mirror when `use_resolved_url` is
false and a mirror is configured. -/
def resolve_download_url (lib : PyLib) (pkg : PackageDetails) (cfg : DownloaderCfg) : String :=
  if cfg.use_resolved_url = false ∧ py_truthy cfg.mirror_registry = true then
    let mirror := cfg.mirror_registry.getD ""
    let base := String.mk ((split_char '/' pkg.name.toList).getLastD [])
    lib.urljoin mirror (pkg.name ++ "/-/" ++ (base ++ "-" ++ pkg.version ++ ".tgz"))
  else pkg.resolved

/-- Lines 137-164: verify the digest of the bytes that were hashed, then build
the metadata entry.  On mismatch the file is removed (line 142) and the
`ValueError` carrying both digests (line 143) is the caught error; on match
the file keeps the hashed content. -/
def verify_and_build (lib : PyLib) (pkg : PackageDetails) (download_url tgz_path : String)
    (content : List Nat) : FetchOutcome :=
  let digest := lib.sha512 content
  let downloaded_hash_b64 := String.mk (b64encodeBytes digest)
  let downloaded_hash_hex := String.mk (hexEncodeBytes digest)
  if downloaded_hash_b64 ≠ pkg.sha512_b64 then
    { result := none, fileAfter := none,
      error := some (FetchErr.hashMismatch pkg.sha512_b64 downloaded_hash_b64) }
  else
    let gp := if pkg.name.toList.contains '/' = true then split_scoped pkg.name
              else ("", pkg.name)
    { result := some
        { group := gp.1, name := gp.2, version := pkg.version,
          nexus_search_name := gp.2 ++ "-" ++ pkg.version,
          download_url := download_url,
          local_path := os_path_abspath lib.cwd tgz_path,
          sha512_hex := downloaded_hash_hex },
      fileAfter := some content, error := none }

/-- download_packages.py lines 82-168, `download_package`.  When the file
already exists its bytes are hashed directly (lines 118-127); otherwise the
response is streamed to the file while being hashed (lines 128-135).  A
non-2xx status aborts before the file is opened; a mid-stream error leaves
the partially written file in place (no cleanup on that path). -/
def download_package (lib : PyLib) (pkg : PackageDetails) (cfg : DownloaderCfg)
    (fileBefore : Option (List Nat)) (net : NetResult) : FetchOutcome :=
  let download_url := resolve_download_url lib pkg cfg
  let base := replace_char '\\' '#' (replace_char '/' '#' pkg.name)
  let tgz_path := os_path_join cfg.download_dir (base ++ "-" ++ pkg.version ++ ".tgz")
  match fileBefore with
  | some cached => verify_and_build lib pkg download_url tgz_path cached
  | none =>
    match net with
    | NetResult.httpError =>
      { result := none, fileAfter := none, error := some FetchErr.httpError }
    | NetResult.midStreamError written =>
      { result := none, fileAfter := some (join_chunks written),
        error := some FetchErr.midStreamError }
    | NetResult.ok chunks => verify_and_build lib pkg download_url tgz_path (join_chunks chunks)

/-- The bytes whose digest line 141 compares against the expected hash: the
cached file content when the file existed, the full streamed body when the
download ran to completion, nothing otherwise. -/
def obtained_bytes (fileBefore : Option (List Nat)) (net : NetResult) : Option (List Nat) :=
  match fileBefore with
  | some cached => some cached
  | none =>
    match net with
    | NetResult.ok chunks => some (join_chunks chunks)
    | _ => none

/-! ## Nexus uploader (upload_to_nexus.py, `NexusUploader`)

The remote store is an input: `UploadEnv.search` gives the component-search
response per queried repository (group/name/version are fixed within one
`process_package` call), `delete_ok` / `upload_ok` the outcomes of the DELETE
and POST calls, and `upload_file_exists` the `os.path.exists` check of line
87.  Each method returns the list of remote calls it performs
(`NexusAction`) together with the log lines it prints (`UpLog`). -/

structure NexusAsset where
  path : String
  checksum_sha512 : Option String
deriving DecidableEq

structure RemoteComponent where
  id : String
  repository : String
  assets : Option (List NexusAsset)
deriving DecidableEq

/-- The search response as `_find_component` sees it after `r.json()`:
either the `items` list (absent key modelled as `[]`), a 404, or any other
HTTP/network failure. -/
inductive SearchOutcome where
  | items (l : List RemoteComponent)
  | http404
  | httpFailure
deriving DecidableEq

inductive UpLog where
  | processingPkg (group name version : String)
  | findNotUniqueCaught (repo group name version : String)
  | findHttpFailure (repo : String)
  | foundInRepo (repo : String)
  | shaMatchSkip
  | shaMismatchNote (localDigest remoteDigest : String)
  | deletingInTarget (repo : String)
  | deletedOk (component_id : String)
  | deleteFailed (component_id : String)
  | warnFoundOtherRepo (found_repo target_repo : String)
  | warnMayDuplicate
  | preparingUpload (repo : String)
  | uploadFileMissing (path : String)
  | uploadedOk (name version : String)
  | uploadFailed (name : String)
deriving DecidableEq

inductive NexusAction where
  | searchReq (repo group_param name version : String)
  | deleteComponent (component_id : String)
  | uploadPost (repo path : String)
deriving DecidableEq

/-- Remote calls that mutate the store (DELETE / POST, not GET search). -/
def NexusAction.isMutate : NexusAction → Bool
  | NexusAction.searchReq _ _ _ _ => false
  | NexusAction.deleteComponent _ => true
  | NexusAction.uploadPost _ _ => true

structure UploadEnv where
  upload_repo : String
  check_repos : List String
  search : String → SearchOutcome
  delete_ok : Bool
  upload_file_exists : Bool
  upload_ok : Bool

/-- Lines 38-41: the `group` search parameter — the group with `@` removed,
or the literal two-character string `""` for unscoped packages. -/
def find_group_param (group : String) : String :=
  if py_truthy (some group) = true then
    String.mk (group.toList.filter (fun c => ¬ (c = '@')))
  else "\x22\x22"

/-- upload_to_nexus.py lines 31-57, `_find_component`, given the search
response.  Note the `raise ValueError` of line 49 for a non-unique result is
caught by the function's own `except Exception` (line 55), which logs it and
falls through to `return None`: the caller cannot distinguish this from
"not found".  A 404 is "absent" with no log; other failures are logged. -/
def find_component (repo group name version : String) (resp : SearchOutcome) :
    Option RemoteComponent × List UpLog :=
  match resp with
  | SearchOutcome.items l =>
    match l with
    | [] => (none, [])
    | [c] => (some c, [])
    | _ => (none, [UpLog.findNotUniqueCaught repo group name version])
  | SearchOutcome.http404 => (none, [])
  | SearchOutcome.httpFailure => (none, [UpLog.findHttpFailure repo])

/-- Lines 64-70: first asset whose path ends in `.tgz` decides; its (possibly
absent) sha512 checksum is returned. -/
def first_tgz_sha : List NexusAsset → Option String
  | [] => none
  | a :: rest => if str_endswith a.path ".tgz" = true then a.checksum_sha512 else first_tgz_sha rest

/-- upload_to_nexus.py lines 59-70, `_get_remote_sha512_hex`. -/
def get_remote_sha512_hex (component : Option RemoteComponent) : Option String :=
  match component with
  | none => none
  | some c =>
    match c.assets with
    | none => none
    | some l => first_tgz_sha l

/-- upload_to_nexus.py lines 72-82, `_delete_component`: the DELETE is issued,
failure is logged and reported as `False` but never raised. -/
def delete_component (env : UploadEnv) (component_id : String) :
    List NexusAction × List UpLog :=
  if env.delete_ok = true then
    ([NexusAction.deleteComponent component_id], [UpLog.deletedOk component_id])
  else
    ([NexusAction.deleteComponent component_id], [UpLog.deleteFailed component_id])

/-- upload_to_nexus.py lines 84-105, `_upload_package`: a missing local file
is logged and no POST happens; otherwise the multipart POST to the upload
repository is issued and its outcome logged. -/
def upload_package (env : UploadEnv) (m : MetaEntry) : List NexusAction × List UpLog :=
  if env.upload_file_exists = false then
    ([], [UpLog.uploadFileMissing m.local_path])
  else if env.upload_ok = true then
    ([NexusAction.uploadPost env.upload_repo m.local_path], [UpLog.uploadedOk m.name m.version])
  else
    ([NexusAction.uploadPost env.upload_repo m.local_path], [UpLog.uploadFailed m.name])

/-- Lines 122-137: the `for repo in self.check_repos` loop.  Returns the found
component, the `sha_matches` flag, the search requests issued and the log.
The loop stops at the first repository whose search returns a component. -/
def check_loop (env : UploadEnv) (group name version local_hex : String) :
    List String → Option RemoteComponent × Bool × List NexusAction × List UpLog
  | [] => (none, false, [], [])
  | repo :: rest =>
    let fr := find_component repo group name version (env.search repo)
    let searchAct := NexusAction.searchReq repo (find_group_param group) name version
    match fr.1 with
    | some c =>
      if get_remote_sha512_hex (some c) = some local_hex then
        (some c, true, [searchAct], fr.2 ++ [UpLog.foundInRepo repo, UpLog.shaMatchSkip])
      else
        (some c, false, [searchAct],
          fr.2 ++ [UpLog.foundInRepo repo,
            UpLog.shaMismatchNote (str_take local_hex 10)
              (str_take (py_str_opt (get_remote_sha512_hex (some c))) 10)])
    | none =>
      let t := check_loop env group name version local_hex rest
      (t.1, t.2.1, searchAct :: t.2.2.1, fr.2 ++ t.2.2.2)

/-- The component the search loop settles on: the first repository (in
configured order) whose `_find_component` returns a component. -/
def first_found (env : UploadEnv) (group name version : String) :
    List String → Option RemoteComponent
  | [] => none
  | repo :: rest =>
    match (find_component repo group name version (env.search repo)).1 with
    | some c => some c
    | none => first_found env group name version rest

/-- upload_to_nexus.py lines 107-157, `process_package`: search all check
repositories (stopping at the first hit), skip on digest match, delete first
when a mismatching component sits in the upload repository (the delete's
result is ignored), warn without deleting when it sits elsewhere, then
upload. -/
def process_package (env : UploadEnv) (m : MetaEntry) : List NexusAction × List UpLog :=
  let t := check_loop env m.group m.name m.version m.sha512_hex env.check_repos
  let logs0 := UpLog.processingPkg m.group m.name m.version :: t.2.2.2
  if t.2.1 = true then (t.2.2.1, logs0)
  else
    let d :=
      match t.1 with
      | some c =>
        if c.repository = env.upload_repo then
          let dr := delete_component env c.id
          (dr.1, UpLog.deletingInTarget env.upload_repo :: dr.2)
        else
          ([], [UpLog.warnFoundOtherRepo c.repository env.upload_repo, UpLog.warnMayDuplicate])
      | none => ([], [])
    let u := upload_package env m
    (t.2.2.1 ++ d.1 ++ u.1, logs0 ++ d.2 ++ UpLog.preparingUpload env.upload_repo :: u.2)

/-! ## Concrete instances

Closed inputs used by the scenario theorems and the witnesses. -/

/-- A 64-byte digest standing for a SHA-512 value. -/
def digestC3 : List Nat := List.range 64

def b64C3 : String := String.mk (b64encodeBytes digestC3)

def hexC3 : String := String.mk (hexEncodeBytes digestC3)

def urlC3 : String := "https://registry.npmjs.org/@scope/pkg/-/pkg-1.2.3.tgz"

def rootC3 : PkgEntry := { resolved := none, integrity := none, version := some "0.0.0" }

def entryC3 : PkgEntry :=
  { resolved := some urlC3, integrity := some ("sha512-" ++ b64C3), version := some "1.2.3" }

/-- A v2/v3 lockfile `packages` map with the root project and one scoped
package `@scope/pkg@1.2.3`. -/
def lockC3 : List (String × PkgEntry) := [("", rootC3), ("node_modules/@scope/pkg", entryC3)]

def pkgC3 : PackageDetails :=
  { name := "@scope/pkg", version := "1.2.3", resolved := urlC3, sha512_b64 := b64C3 }

/-- Library functions for the scoped-package scenario: the hash of the body
is the expected digest. -/
def libC3 : PyLib := { sha512 := fun _ => digestC3, urljoin := fun a b => a ++ b, cwd := "/work" }

def cfgC3 : DownloaderCfg :=
  { download_dir := "npm_tgz", use_resolved_url := true, mirror_registry := none }

def bytesC3 : List Nat := [0]

def libC10 : PyLib := { sha512 := fun _ => digestC3, urljoin := fun a b => a ++ b, cwd := "/work" }

def pkgC10 : PackageDetails :=
  { name := "react", version := "18.0.0",
    resolved := "https://registry.npmjs.org/react/-/react-18.0.0.tgz", sha512_b64 := b64C3 }

def cfgC10 : DownloaderCfg :=
  { download_dir := "npm_tgz", use_resolved_url := true, mirror_registry := none }

def libW2 : PyLib := { sha512 := fun l => l, urljoin := fun a b => a ++ b, cwd := "/work" }

def pkgW2 : PackageDetails :=
  { name := "left-pad", version := "1.3.0",
    resolved := "https://registry.npmjs.org/left-pad/-/left-pad-1.3.0.tgz",
    sha512_b64 := "expected-but-wrong" }

def cfgW2 : DownloaderCfg :=
  { download_dir := "npm_tgz", use_resolved_url := true, mirror_registry := none }

def libW4 : PyLib := { sha512 := fun _ => [1, 2, 3], urljoin := fun a b => a ++ b, cwd := "/w" }

def cfgW4 : DownloaderCfg :=
  { download_dir := "npm_tgz", use_resolved_url := true, mirror_registry := none }

def pkgW4 : PackageDetails :=
  { name := "react", version := "18.0.0",
    resolved := "https://registry.npmjs.org/react/-/react-18.0.0.tgz", sha512_b64 := "AQID" }

def mW4 : MetaEntry :=
  { group := "", name := "react", version := "18.0.0", nexus_search_name := "react-18.0.0",
    download_url := "https://registry.npmjs.org/react/-/react-18.0.0.tgz",
    local_path := "/w/npm_tgz/react-18.0.0.tgz", sha512_hex := "010203" }

def compC1a : RemoteComponent :=
  { id := "idA", repository := "npm-hosted",
    assets := some [{ path := "lodash-1.0.0.tgz", checksum_sha512 := some "aa" }] }

def compC1b : RemoteComponent :=
  { id := "idB", repository := "npm-hosted",
    assets := some [{ path := "lodash-1.0.0.tgz", checksum_sha512 := some "bb" }] }

/-- Environment whose search returns two items for the only check
repository. -/
def envC1 : UploadEnv :=
  { upload_repo := "npm-hosted", check_repos := ["repoA"],
    search := fun _ => SearchOutcome.items [compC1a, compC1b],
    delete_ok := true, upload_file_exists := true, upload_ok := true }

def mC1 : MetaEntry :=
  { group := "", name := "lodash", version := "1.0.0", nexus_search_name := "lodash-1.0.0",
    download_url := "u", local_path := "/a/l.tgz", sha512_hex := "aa" }

/-- First check repository holds a copy with a different digest. -/
def compA5 : RemoteComponent :=
  { id := "idA5", repository := "mirror-a",
    assets := some [{ path := "left-pad-1.0.0.tgz", checksum_sha512 := some "beef" }] }

/-- Second check repository holds a copy whose digest matches the local one. -/
def compB5 : RemoteComponent :=
  { id := "idB5", repository := "mirror-b",
    assets := some [{ path := "left-pad-1.0.0.tgz", checksum_sha512 := some "aaaa" }] }

def envC5 : UploadEnv :=
  { upload_repo := "npm-hosted", check_repos := ["mirror-a", "mirror-b"],
    search := fun r => if r = "mirror-a" then SearchOutcome.items [compA5]
                       else SearchOutcome.items [compB5],
    delete_ok := true, upload_file_exists := true, upload_ok := true }

def mC5 : MetaEntry :=
  { group := "", name := "left-pad", version := "1.0.0", nexus_search_name := "left-pad-1.0.0",
    download_url := "u", local_path := "/w/left-pad-1.0.0.tgz", sha512_hex := "aaaa" }

def compW5 : RemoteComponent :=
  { id := "idW5", repository := "npm-all",
    assets := some [{ path := "chalk-2.0.0.tgz", checksum_sha512 := some "cafe" }] }

def envW5 : UploadEnv :=
  { upload_repo := "npm-hosted", check_repos := ["npm-all"],
    search := fun _ => SearchOutcome.items [compW5],
    delete_ok := true, upload_file_exists := true, upload_ok := true }

def mW5 : MetaEntry :=
  { group := "", name := "chalk", version := "2.0.0", nexus_search_name := "chalk-2.0.0",
    download_url := "u", local_path := "/w/chalk-2.0.0.tgz", sha512_hex := "cafe" }

def compW6 : RemoteComponent :=
  { id := "idW6", repository := "npm-hosted",
    assets := some [{ path := "chalk-2.0.0.tgz", checksum_sha512 := some "dead" }] }

def envW6 : UploadEnv :=
  { upload_repo := "npm-hosted", check_repos := ["npm-hosted"],
    search := fun _ => SearchOutcome.items [compW6],
    delete_ok := true, upload_file_exists := true, upload_ok := true }

def mW6 : MetaEntry :=
  { group := "", name := "chalk", version := "2.0.0", nexus_search_name := "chalk-2.0.0",
    download_url := "u", local_path := "/w/chalk-2.0.0.tgz", sha512_hex := "cafe" }

def compW7 : RemoteComponent :=
  { id := "idW7", repository := "mirror-x",
    assets := some [{ path := "chalk-2.0.0.tgz", checksum_sha512 := some "dead" }] }

def envW7 : UploadEnv :=
  { upload_repo := "npm-hosted", check_repos := ["mirror-x"],
    search := fun _ => SearchOutcome.items [compW7],
    delete_ok := true, upload_file_exists := true, upload_ok := true }

def mW7 : MetaEntry :=
  { group := "", name := "chalk", version := "2.0.0", nexus_search_name := "chalk-2.0.0",
    download_url := "u", local_path := "/w/chalk-2.0.0.tgz", sha512_hex := "cafe" }

def compW9 : RemoteComponent :=
  { id := "idW9", repository := "npm-hosted",
    assets := some [{ path := "chalk-2.0.0.tgz", checksum_sha512 := some "dead" }] }

/-- Same replace scenario as W6, but the DELETE call fails. -/
def envW9 : UploadEnv :=
  { upload_repo := "npm-hosted", check_repos := ["npm-hosted"],
    search := fun _ => SearchOutcome.items [compW9],
    delete_ok := false, upload_file_exists := true, upload_ok := true }

def mW9 : MetaEntry :=
  { group := "", name := "chalk", version := "2.0.0", nexus_search_name := "chalk-2.0.0",
    download_url := "u", local_path := "/w/chalk-2.0.0.tgz", sha512_hex := "cafe" }

/-! ## Encoding round-trip lemmas -/

theorem b64Index_b64Char : ∀ s : Nat, s < 64 → b64Index (b64Char s) = some s := by decide

theorem b64Char_ne_pad : ∀ s : Nat, s < 64 → ¬ (b64Char s = '=') := by decide

theorem hexIndex_hexChar : ∀ s : Nat, s < 16 → hexIndex (hexChar s) = some s := by decide

theorem b64_roundtrip :
    ∀ l : List Nat, (∀ x ∈ l, x < 256) → b64decodeChars (b64encodeBytes l) = some l := by
  intro l
  induction l using b64encodeBytes.induct with
  | case1 =>
    intro _
    decide
  | case2 a =>
    intro h
    have ha : a < 256 := h a (by simp)
    have i1 : b64Index (b64Char (a / 4)) = some (a / 4) := b64Index_b64Char _ (by omega)
    have i2 : b64Index (b64Char (a % 4 * 16)) = some (a % 4 * 16) := b64Index_b64Char _ (by omega)
    simp [b64encodeBytes, b64decodeChars, i1, i2]
    omega
  | case3 a b =>
    intro h
    have ha : a < 256 := h a (by simp)
    have hb : b < 256 := h b (by simp)
    have i1 : b64Index (b64Char (a / 4)) = some (a / 4) := b64Index_b64Char _ (by omega)
    have i2 : b64Index (b64Char (a % 4 * 16 + b / 16)) = some (a % 4 * 16 + b / 16) :=
      b64Index_b64Char _ (by omega)
    have i3 : b64Index (b64Char (b % 16 * 4)) = some (b % 16 * 4) := b64Index_b64Char _ (by omega)
    have n3 : ¬ (b64Char (b % 16 * 4) = '=') := b64Char_ne_pad _ (by omega)
    simp [b64encodeBytes, b64decodeChars, i1, i2, i3, n3]
    omega
  | case4 a b c rest ih =>
    intro h
    have ha : a < 256 := h a (by simp)
    have hb : b < 256 := h b (by simp)
    have hc : c < 256 := h c (by simp)
    have hrest : ∀ x ∈ rest, x < 256 := fun x hx => h x (by simp [hx])
    have i1 : b64Index (b64Char (a / 4)) = some (a / 4) := b64Index_b64Char _ (by omega)
    have i2 : b64Index (b64Char (a % 4 * 16 + b / 16)) = some (a % 4 * 16 + b / 16) :=
      b64Index_b64Char _ (by omega)
    have i3 : b64Index (b64Char (b % 16 * 4 + c / 64)) = some (b % 16 * 4 + c / 64) :=
      b64Index_b64Char _ (by omega)
    have i4 : b64Index (b64Char (c % 64)) = some (c % 64) := b64Index_b64Char _ (by omega)
    have n3 : ¬ (b64Char (b % 16 * 4 + c / 64) = '=') := b64Char_ne_pad _ (by omega)
    have n4 : ¬ (b64Char (c % 64) = '=') := b64Char_ne_pad _ (by omega)
    simp [b64encodeBytes, b64decodeChars, i1, i2, i3, i4, n3, n4, ih hrest]
    omega

theorem hex_roundtrip :
    ∀ l : List Nat, (∀ x ∈ l, x < 256) → hexDecodeChars (hexEncodeBytes l) = some l := by
  intro l
  induction l with
  | nil =>
    intro _
    decide
  | cons b rest ih =>
    intro h
    have hb : b < 256 := h b (by simp)
    have hrest : ∀ x ∈ rest, x < 256 := fun x hx => h x (by simp [hx])
    have i1 : hexIndex (hexChar (b / 16)) = some (b / 16) := hexIndex_hexChar _ (by omega)
    have i2 : hexIndex (hexChar (b % 16)) = some (b % 16) := hexIndex_hexChar _ (by omega)
    simp [hexEncodeBytes, hexDecodeChars, i1, i2, ih hrest]
    omega

/-! ## Search-loop lemmas -/

theorem check_loop_first (env : UploadEnv) (g n v lh : String) (repos : List String) :
    (check_loop env g n v lh repos).1 = first_found env g n v repos := by
  induction repos with
  | nil => rfl
  | cons repo rest ih =>
    cases hfc : (find_component repo g n v (env.search repo)).1 with
    | none =>
      simp only [check_loop, first_found, hfc]
      exact ih
    | some c =>
      simp only [check_loop, first_found, hfc]
      split <;> rfl

theorem check_loop_sha_true (env : UploadEnv) (g n v lh : String) (repos : List String)
    (c : RemoteComponent) (hf : first_found env g n v repos = some c)
    (hm : get_remote_sha512_hex (some c) = some lh) :
    (check_loop env g n v lh repos).2.1 = true := by
  induction repos with
  | nil => simp [first_found] at hf
  | cons repo rest ih =>
    cases hfc : (find_component repo g n v (env.search repo)).1 with
    | none =>
      simp only [first_found, hfc] at hf
      simp only [check_loop, hfc]
      exact ih hf
    | some c2 =>
      simp only [first_found, hfc, Option.some.injEq] at hf
      subst hf
      simp only [check_loop, hfc]
      rw [if_pos hm]

theorem check_loop_sha_false (env : UploadEnv) (g n v lh : String) (repos : List String)
    (c : RemoteComponent) (hf : first_found env g n v repos = some c)
    (hm : ¬ (get_remote_sha512_hex (some c) = some lh)) :
    (check_loop env g n v lh repos).2.1 = false := by
  induction repos with
  | nil => simp [first_found] at hf
  | cons repo rest ih =>
    cases hfc : (find_component repo g n v (env.search repo)).1 with
    | none =>
      simp only [first_found, hfc] at hf
      simp only [check_loop, hfc]
      exact ih hf
    | some c2 =>
      simp only [first_found, hfc, Option.some.injEq] at hf
      subst hf
      simp only [check_loop, hfc]
      rw [if_neg hm]

theorem check_loop_acts (env : UploadEnv) (g n v lh : String) (repos : List String) :
    List.filter NexusAction.isMutate (check_loop env g n v lh repos).2.2.1 = [] := by
  induction repos with
  | nil => rfl
  | cons repo rest ih =>
    cases hfc : (find_component repo g n v (env.search repo)).1 with
    | none =>
      simp only [check_loop, hfc]
      simp [NexusAction.isMutate, ih]
    | some c =>
      simp only [check_loop, hfc]
      split <;> simp [NexusAction.isMutate]

theorem delete_component_acts (env : UploadEnv) (cid : String) :
    (delete_component env cid).1 = [NexusAction.deleteComponent cid] := by
  unfold delete_component
  split <;> rfl

theorem upload_package_acts (env : UploadEnv) (m : MetaEntry)
    (h : env.upload_file_exists = true) :
    (upload_package env m).1 = [NexusAction.uploadPost env.upload_repo m.local_path] := by
  unfold upload_package
  rw [h]
  simp only [Bool.true_eq_false, if_false]
  split <;> rfl

/-! ## Archive-fetcher lemmas and claims -/

theorem verify_and_build_mismatch (lib : PyLib) (pkg : PackageDetails) (du tp : String)
    (content : List Nat)
    (hm : String.mk (b64encodeBytes (lib.sha512 content)) ≠ pkg.sha512_b64) :
    verify_and_build lib pkg du tp content =
      { result := none, fileAfter := none,
        error := some (FetchErr.hashMismatch pkg.sha512_b64
          (String.mk (b64encodeBytes (lib.sha512 content)))) } := by
  simp only [verify_and_build]
  rw [if_pos hm]

/-- C2: whenever the hashed bytes (the cached file's content, or the fully
streamed body) have a base64-encoded SHA-512 digest different from the
descriptor's expected hash, `download_package` returns no result, no file is
left at the artifact's path, and the caught failure carries both digests. -/
theorem fetch_mismatch_no_file (lib : PyLib) (pkg : PackageDetails) (cfg : DownloaderCfg)
    (fileBefore : Option (List Nat)) (net : NetResult) (bytes : List Nat)
    (hb : obtained_bytes fileBefore net = some bytes)
    (hm : String.mk (b64encodeBytes (lib.sha512 bytes)) ≠ pkg.sha512_b64) :
    (download_package lib pkg cfg fileBefore net).result = none ∧
    (download_package lib pkg cfg fileBefore net).fileAfter = none ∧
    (download_package lib pkg cfg fileBefore net).error =
      some (FetchErr.hashMismatch pkg.sha512_b64
        (String.mk (b64encodeBytes (lib.sha512 bytes)))) := by
  cases fileBefore with
  | some cached =>
    simp only [obtained_bytes, Option.some.injEq] at hb
    subst hb
    simp only [download_package, verify_and_build_mismatch lib pkg _ _ _ hm]
    exact ⟨trivial, trivial, trivial⟩
  | none =>
    cases net with
    | ok chunks =>
      simp only [obtained_bytes, Option.some.injEq] at hb
      subst hb
      simp only [download_package, verify_and_build_mismatch lib pkg _ _ _ hm]
      exact ⟨trivial, trivial, trivial⟩
    | httpError => simp [obtained_bytes] at hb
    | midStreamError w => simp [obtained_bytes] at hb

theorem fetch_mismatch_no_file_witness :
    (download_package libW2 pkgW2 cfgW2 none (NetResult.ok [[1], [2, 3]])).result = none ∧
    (download_package libW2 pkgW2 cfgW2 none (NetResult.ok [[1], [2, 3]])).fileAfter = none ∧
    (download_package libW2 pkgW2 cfgW2 none (NetResult.ok [[1], [2, 3]])).error =
      some (FetchErr.hashMismatch pkgW2.sha512_b64
        (String.mk (b64encodeBytes (libW2.sha512 [1, 2, 3])))) :=
  fetch_mismatch_no_file libW2 pkgW2 cfgW2 none (NetResult.ok [[1], [2, 3]]) [1, 2, 3]
    (by decide) (by decide)

theorem verify_and_build_agree (lib : PyLib) (pkg : PackageDetails) (du tp : String)
    (content : List Nat) (m : MetaEntry)
    (hbytes : ∀ x ∈ lib.sha512 content, x < 256)
    (hres : (verify_and_build lib pkg du tp content).result = some m) :
    ∃ d : List Nat, b64decodeChars pkg.sha512_b64.toList = some d ∧
      hexDecodeChars m.sha512_hex.toList = some d := by
  by_cases h : String.mk (b64encodeBytes (lib.sha512 content)) = pkg.sha512_b64
  · have hx : m.sha512_hex = String.mk (hexEncodeBytes (lib.sha512 content)) := by
      have h2 : (verify_and_build lib pkg du tp content).result = some m := hres
      simp only [verify_and_build] at h2
      rw [if_neg (fun hneq => hneq h)] at h2
      simp only [Option.some.injEq] at h2
      rw [← h2]
    refine ⟨lib.sha512 content, ?_, ?_⟩
    · rw [← h]
      exact b64_roundtrip _ hbytes
    · rw [hx]
      exact hex_roundtrip _ hbytes
  · rw [verify_and_build_mismatch lib pkg du tp content h] at hres
    simp at hres

/-- C4: for every successful fetch, the descriptor's base64 `expectedHash`
and the returned metadata's hex `sha512_hex` decode to the same digest. -/
theorem fetch_hash_encodings_agree (lib : PyLib) (pkg : PackageDetails) (cfg : DownloaderCfg)
    (fileBefore : Option (List Nat)) (net : NetResult) (m : MetaEntry)
    (hbytes : ∀ l : List Nat, ∀ x ∈ lib.sha512 l, x < 256)
    (hres : (download_package lib pkg cfg fileBefore net).result = some m) :
    ∃ d : List Nat, b64decodeChars pkg.sha512_b64.toList = some d ∧
      hexDecodeChars m.sha512_hex.toList = some d := by
  cases fileBefore with
  | some cached =>
    exact verify_and_build_agree lib pkg _ _ cached m (hbytes cached) hres
  | none =>
    cases net with
    | ok chunks => exact verify_and_build_agree lib pkg _ _ _ m (hbytes _) hres
    | httpError => simp [download_package] at hres
    | midStreamError w => simp [download_package] at hres

theorem fetch_hash_encodings_agree_witness :
    ∃ d : List Nat, b64decodeChars pkgW4.sha512_b64.toList = some d ∧
      hexDecodeChars mW4.sha512_hex.toList = some d :=
  fetch_hash_encodings_agree libW4 pkgW4 cfgW4 none (NetResult.ok [[9]]) mW4
    (by intro l x hx; simp [libW4] at hx; omega) (by decide)

/-! ## Scenario claims -/

/-- C3 counterexample: for the scoped package `@scope/pkg@1.2.3` the fetch
succeeds, but the metadata's `group` is `"@scope"` (the `split('/', 1)` of
line 150 keeps the `@`), not `"scope"` as claimed. -/
theorem scoped_group_counterexample :
    ((download_package libC3 pkgC3 cfgC3 none (NetResult.ok [bytesC3])).result).map
      MetaEntry.group = some "@scope" ∧
    ((download_package libC3 pkgC3 cfgC3 none (NetResult.ok [bytesC3])).result).map
      MetaEntry.group ≠ some "scope" := by
  decide

/-- C3 (amended): a lockfile with the single scoped package `@scope/pkg@1.2.3`
parses to one descriptor named `"@scope/pkg"`, and fetching it with matching
bytes yields group `"@scope"` (the `@` is only stripped later, by the search
parameter construction), unscoped name `"pkg"`, search key `"pkg-1.2.3"`, and
a local path ending in `scope#pkg-1.2.3.tgz`. -/
theorem scoped_scenario_amended :
    (parse_package_lock "package-lock.json" (LockInput.parsed (some lockC3))).1 = [pkgC3] ∧
    pkgC3.name = "@scope/pkg" ∧
    (download_package libC3 pkgC3 cfgC3 none (NetResult.ok [bytesC3])).result = some
      { group := "@scope", name := "pkg", version := "1.2.3",
        nexus_search_name := "pkg-1.2.3", download_url := urlC3,
        local_path := "/work/npm_tgz/@scope#pkg-1.2.3.tgz", sha512_hex := hexC3 } ∧
    str_endswith "/work/npm_tgz/@scope#pkg-1.2.3.tgz" "scope#pkg-1.2.3.tgz" = true := by
  decide

/-- C8: the three failure modes of `parse_package_lock` — missing file,
invalid JSON, and an absent or empty `packages` field — each return the empty
list together with a case-specific diagnostic, and those three diagnostics
are pairwise distinct.  The embedding is a total function, so no exception
escapes. -/
theorem parse_package_lock_failure_modes :
    parse_package_lock "package-lock.json" LockInput.noFile =
      ([], [DlLog.parsingFile "package-lock.json", DlLog.fileNotFound "package-lock.json"]) ∧
    parse_package_lock "package-lock.json" LockInput.badJson =
      ([], [DlLog.parsingFile "package-lock.json", DlLog.badFormat "package-lock.json"]) ∧
    parse_package_lock "package-lock.json" (LockInput.parsed none) =
      ([], [DlLog.parsingFile "package-lock.json", DlLog.packagesEmptyOrMissing]) ∧
    parse_package_lock "package-lock.json" (LockInput.parsed (some [])) =
      ([], [DlLog.parsingFile "package-lock.json", DlLog.packagesEmptyOrMissing]) ∧
    DlLog.fileNotFound "package-lock.json" ≠ DlLog.badFormat "package-lock.json" ∧
    DlLog.fileNotFound "package-lock.json" ≠ DlLog.packagesEmptyOrMissing ∧
    DlLog.badFormat "package-lock.json" ≠ DlLog.packagesEmptyOrMissing := by
  decide

/-- C10: an execution in which the streamed download fails after one chunk
has been written: `download_package` returns no result, yet the partially
written file is still on disk — the cleanup of line 142 runs only on the
digest-mismatch branch, not on mid-stream download errors. -/
theorem midstream_error_leaves_partial_file :
    (download_package libC10 pkgC10 cfgC10 none
      (NetResult.midStreamError [[1, 2, 3]])).result = none ∧
    (download_package libC10 pkgC10 cfgC10 none
      (NetResult.midStreamError [[1, 2, 3]])).fileAfter = some [1, 2, 3] := by
  decide

/-- C1 (the code evaluated at the failing input): when the search response
holds two items, `_find_component`'s own `except Exception` swallows the
`ValueError` raised on line 49 — the function logs it and returns `None`, so
the caller sees the component as absent and the reconciliation of the entry
proceeds all the way to an upload instead of aborting. -/
theorem find_multi_items_treated_as_absent :
    find_component "repoA" "" "lodash" "1.0.0" (SearchOutcome.items [compC1a, compC1b]) =
      (none, [UpLog.findNotUniqueCaught "repoA" "" "lodash" "1.0.0"]) ∧
    List.filter NexusAction.isMutate (process_package envC1 mC1).1 =
      [NexusAction.uploadPost "npm-hosted" "/a/l.tgz"] := by
  decide

/-! ## Reconciliation claims -/

/-- C5 counterexample: with two check repositories, the second one holds a
component whose digest equals the local digest, yet `process_package` still
performs an upload — the loop stopped at the first repository, whose copy
mismatched. -/
theorem skip_claim_two_repo_counterexample :
    envC5.check_repos = ["mirror-a", "mirror-b"] ∧
    get_remote_sha512_hex
      ((find_component "mirror-b" "" "left-pad" "1.0.0" (envC5.search "mirror-b")).1) =
      some mC5.sha512_hex ∧
    List.filter NexusAction.isMutate (process_package envC5 mC5).1 =
      [NexusAction.uploadPost "npm-hosted" "/w/left-pad-1.0.0.tgz"] := by
  decide

/-- C5 (amended): when the *first* check repository reporting a match (in
configured order) holds a component whose remote hex digest equals the local
one, `process_package` performs zero delete and zero upload calls. -/
theorem process_skip_on_first_match (env : UploadEnv) (m : MetaEntry) (c : RemoteComponent)
    (hf : first_found env m.group m.name m.version env.check_repos = some c)
    (hm : get_remote_sha512_hex (some c) = some m.sha512_hex) :
    List.filter NexusAction.isMutate (process_package env m).1 = [] := by
  have h2 := check_loop_sha_true env m.group m.name m.version m.sha512_hex env.check_repos c hf hm
  have h3 := check_loop_acts env m.group m.name m.version m.sha512_hex env.check_repos
  simp only [process_package, h2, if_true]
  exact h3

theorem process_skip_on_first_match_witness :
    List.filter NexusAction.isMutate (process_package envW5 mW5).1 = [] :=
  process_skip_on_first_match envW5 mW5 compW5 (by decide) (by decide)

/-- C6: when the first-found component's digest mismatches and the component
sits in the upload-target repository, `process_package` performs exactly one
delete (targeting that component's id) followed by exactly one upload to the
upload repository. -/
theorem process_replace_in_target (env : UploadEnv) (m : MetaEntry) (c : RemoteComponent)
    (hf : first_found env m.group m.name m.version env.check_repos = some c)
    (hm : ¬ (get_remote_sha512_hex (some c) = some m.sha512_hex))
    (hr : c.repository = env.upload_repo)
    (hfe : env.upload_file_exists = true) :
    List.filter NexusAction.isMutate (process_package env m).1 =
      [NexusAction.deleteComponent c.id,
       NexusAction.uploadPost env.upload_repo m.local_path] := by
  have h1 : (check_loop env m.group m.name m.version m.sha512_hex env.check_repos).1 = some c :=
    (check_loop_first env m.group m.name m.version m.sha512_hex env.check_repos).trans hf
  have h2 := check_loop_sha_false env m.group m.name m.version m.sha512_hex env.check_repos c hf hm
  have h3 := check_loop_acts env m.group m.name m.version m.sha512_hex env.check_repos
  have hd := delete_component_acts env c.id
  have hu := upload_package_acts env m hfe
  simp only [process_package, h1, h2, Bool.false_eq_true, if_false]
  rw [if_pos hr]
  simp [List.filter_append, h3, hd, hu, NexusAction.isMutate]

theorem process_replace_in_target_witness :
    List.filter NexusAction.isMutate (process_package envW6 mW6).1 =
      [NexusAction.deleteComponent compW6.id,
       NexusAction.uploadPost envW6.upload_repo mW6.local_path] :=
  process_replace_in_target envW6 mW6 compW6 (by decide) (by decide) (by decide) (by decide)

/-- C7: when the first-found component's digest mismatches but the component
sits in a repository other than the upload target, `process_package` deletes
nothing, logs the duplication warning, and still performs exactly one upload
to the upload repository. -/
theorem process_mismatch_other_repo (env : UploadEnv) (m : MetaEntry) (c : RemoteComponent)
    (hf : first_found env m.group m.name m.version env.check_repos = some c)
    (hm : ¬ (get_remote_sha512_hex (some c) = some m.sha512_hex))
    (hr : ¬ (c.repository = env.upload_repo))
    (hfe : env.upload_file_exists = true) :
    List.filter NexusAction.isMutate (process_package env m).1 =
      [NexusAction.uploadPost env.upload_repo m.local_path] ∧
    UpLog.warnMayDuplicate ∈ (process_package env m).2 := by
  have h1 : (check_loop env m.group m.name m.version m.sha512_hex env.check_repos).1 = some c :=
    (check_loop_first env m.group m.name m.version m.sha512_hex env.check_repos).trans hf
  have h2 := check_loop_sha_false env m.group m.name m.version m.sha512_hex env.check_repos c hf hm
  have h3 := check_loop_acts env m.group m.name m.version m.sha512_hex env.check_repos
  have hu := upload_package_acts env m hfe
  simp only [process_package, h1, h2, Bool.false_eq_true, if_false]
  rw [if_neg hr]
  constructor
  · simp [List.filter_append, h3, hu, NexusAction.isMutate]
  · simp

theorem process_mismatch_other_repo_witness :
    List.filter NexusAction.isMutate (process_package envW7 mW7).1 =
      [NexusAction.uploadPost envW7.upload_repo mW7.local_path] ∧
    UpLog.warnMayDuplicate ∈ (process_package envW7 mW7).2 :=
  process_mismatch_other_repo envW7 mW7 compW7 (by decide) (by decide) (by decide) (by decide)

/-- C9: in the replace-then-upload state the delete's result is ignored —
even when the DELETE call fails (and its failure is logged), exactly one
upload still follows the delete attempt. -/
theorem process_upload_despite_delete_failure (env : UploadEnv) (m : MetaEntry)
    (c : RemoteComponent)
    (hf : first_found env m.group m.name m.version env.check_repos = some c)
    (hm : ¬ (get_remote_sha512_hex (some c) = some m.sha512_hex))
    (hr : c.repository = env.upload_repo)
    (hdel : env.delete_ok = false)
    (hfe : env.upload_file_exists = true) :
    List.filter NexusAction.isMutate (process_package env m).1 =
      [NexusAction.deleteComponent c.id,
       NexusAction.uploadPost env.upload_repo m.local_path] ∧
    UpLog.deleteFailed c.id ∈ (process_package env m).2 := by
  have h1 : (check_loop env m.group m.name m.version m.sha512_hex env.check_repos).1 = some c :=
    (check_loop_first env m.group m.name m.version m.sha512_hex env.check_repos).trans hf
  have h2 := check_loop_sha_false env m.group m.name m.version m.sha512_hex env.check_repos c hf hm
  have h3 := check_loop_acts env m.group m.name m.version m.sha512_hex env.check_repos
  have hd := delete_component_acts env c.id
  have hu := upload_package_acts env m hfe
  have hdl : (delete_component env c.id).2 = [UpLog.deleteFailed c.id] := by
    unfold delete_component
    rw [hdel]
    rfl
  simp only [process_package, h1, h2, Bool.false_eq_true, if_false]
  rw [if_pos hr]
  constructor
  · simp [List.filter_append, h3, hd, hu, NexusAction.isMutate]
  · simp [hdl]

theorem process_upload_despite_delete_failure_witness :
    List.filter NexusAction.isMutate (process_package envW9 mW9).1 =
      [NexusAction.deleteComponent compW9.id,
       NexusAction.uploadPost envW9.upload_repo mW9.local_path] ∧
    UpLog.deleteFailed compW9.id ∈ (process_package envW9 mW9).2 :=
  process_upload_despite_delete_failure envW9 mW9 compW9 (by decide) (by decide) (by decide)
    (by decide) (by decide)
